import Mathlib

/-!
Verification of the burncloud-auto-update library: a shallow embedding of its
configuration holder (src/config.rs), error taxonomy (src/error.rs) and update
policy engine (src/updater.rs), together with theorems settling the frozen
claims about the natural-language specification.

The external collaborators (the release lister and the update executor of the
self_update crate, and the network/platform probing) are modelled by passing
their outcome in as an explicit `Except` argument: the Rust code threads every
such failure out with the question-mark operator, which the embedding mirrors
by propagating the `error` case unchanged.
-/

/-- UpdateConfig from src/config.rs: owner, repository, binary name and the
current version string of the running program. -/
structure UpdateConfig where
  github_owner : String
  github_repo : String
  bin_name : String
  current_version : String
  deriving DecidableEq

/-- UpdateConfig.new from src/config.rs: plain record construction, no
validation of any field. -/
def UpdateConfig.new (github_owner github_repo bin_name current_version : String) :
    UpdateConfig :=
  { github_owner, github_repo, bin_name, current_version }

/-- with_github_repo from src/config.rs: replace owner and repository. -/
def UpdateConfig.with_github_repo (c : UpdateConfig) (owner repo : String) : UpdateConfig :=
  { c with github_owner := owner, github_repo := repo }

/-- with_bin_name from src/config.rs: replace the binary name only. -/
def UpdateConfig.with_bin_name (c : UpdateConfig) (name : String) : UpdateConfig :=
  { c with bin_name := name }

/-- with_current_version from src/config.rs: replace the current version only. -/
def UpdateConfig.with_current_version (c : UpdateConfig) (version : String) : UpdateConfig :=
  { c with current_version := version }

/-- github_releases_url from src/config.rs: pure formatting of
https://github.com/OWNER/REPO/releases. -/
def UpdateConfig.github_releases_url (c : UpdateConfig) : String :=
  "https://github.com/" ++ c.github_owner ++ "/" ++ c.github_repo ++ "/releases"

/-- gitee_releases_url from src/config.rs: pure formatting of
https://gitee.com/OWNER/REPO/releases. -/
def UpdateConfig.gitee_releases_url (c : UpdateConfig) : String :=
  "https://gitee.com/" ++ c.github_owner ++ "/" ++ c.github_repo ++ "/releases"

/-- download_links from src/config.rs: the pair (GitHub url, Gitee url). -/
def UpdateConfig.download_links (c : UpdateConfig) : String × String :=
  (c.github_releases_url, c.gitee_releases_url)

/-- UpdateError from src/error.rs: the error taxonomy of the library. -/
inductive UpdateError where
  | Network (msg : String)
  | GitHub (msg : String)
  | Version (msg : String)
  | FileSystem (msg : String)
  | Permission (msg : String)
  | Configuration (msg : String)
  | Other (msg : String)
  | Unknown (msg : String)
  deriving DecidableEq

/-- UpdateResult from src/error.rs: Result with the UpdateError taxonomy. -/
abbrev UpdateResult (α : Type) : Type := Except UpdateError α

/-- Release descriptor produced by the external release lister: the version tag
and the display name of one published release (fields tag and name, the two
fields read by src/updater.rs). -/
structure Release where
  tag : String
  name : String
  deriving DecidableEq

/-- Update outcome reported by the external update executor: whether the binary
was replaced, and the resulting version string (the status value of
src/updater.rs, read through the methods updated and version). -/
structure UpdateStatus where
  updated : Bool
  version : String
  deriving DecidableEq

/-- Rust trim_start_matches with the char pattern v, as applied in
src/updater.rs: repeatedly removes the pattern from the start, hence drops the
whole maximal leading run of the lowercase letter v. -/
def trim_start_matches_v (s : String) : String :=
  String.mk (s.toList.dropWhile (fun c => c = 'v'))

/-- Modelled from the spec: one prerelease identifier of the external
semantic-version collaborator — numeric identifiers (all digits, no leading
zero) are compared numerically and precede alphanumeric identifiers, which are
compared in ASCII lexical order. -/
inductive PreId where
  | num (n : Nat)
  | str (s : String)
  deriving DecidableEq

/-- Modelled from the spec: a parsed semantic version of the external
semantic-version collaborator — major.minor.patch, the optional prerelease
identifier list (empty when absent) and the optional build metadata identifier
list (ignored by precedence). -/
structure Version where
  major : Nat
  minor : Nat
  patch : Nat
  pre : List PreId
  build : List String
  deriving DecidableEq

/-- Comparison of two values of a linear order as an Ordering value. -/
def cmpLin {α : Type} [LinearOrder α] (a b : α) : Ordering :=
  if a < b then Ordering.lt else if b < a then Ordering.gt else Ordering.eq

/-- Modelled from the spec: precedence of two prerelease identifiers — numeric
before alphanumeric, numeric against numeric by value, alphanumeric against
alphanumeric in ASCII lexical order. -/
def comparePreId : PreId → PreId → Ordering
  | PreId.num a, PreId.num b => cmpLin a b
  | PreId.num _, PreId.str _ => Ordering.lt
  | PreId.str _, PreId.num _ => Ordering.gt
  | PreId.str a, PreId.str b => cmpLin a b

/-- Modelled from the spec: identifier-by-identifier precedence of two
nonempty prerelease identifier lists, a strict prefix preceding its extension. -/
def comparePreList : List PreId → List PreId → Ordering
  | [], [] => Ordering.eq
  | [], _ :: _ => Ordering.lt
  | _ :: _, [] => Ordering.gt
  | a :: as, b :: bs => (comparePreId a b).then (comparePreList as bs)

/-- Modelled from the spec: prerelease precedence — a version without
prerelease identifiers has higher precedence than the same version with some. -/
def comparePre : List PreId → List PreId → Ordering
  | [], [] => Ordering.eq
  | [], _ :: _ => Ordering.gt
  | _ :: _, [] => Ordering.lt
  | a, b => comparePreList a b

/-- Modelled from the spec: full semantic-version precedence of the external
comparator — major, then minor, then patch numerically, then prerelease
precedence per the semantic-versioning rules; build metadata is ignored. -/
def Version.cmp (a b : Version) : Ordering :=
  (cmpLin a.major b.major).then
    ((cmpLin a.minor b.minor).then
      ((cmpLin a.patch b.patch).then (comparePre a.pre b.pre)))

/-- Strict semantic-version order: a is strictly lower precedence than b. -/
def Version.blt (a b : Version) : Bool :=
  Version.cmp a b == Ordering.lt

/-- Split a character list at every dot. -/
def splitOnDot : List Char → List (List Char)
  | [] => [[]]
  | c :: cs =>
    if c = '.' then [] :: splitOnDot cs
    else
      match splitOnDot cs with
      | [] => [[c]]
      | g :: gs => (c :: g) :: gs

/-- Break a character list at the first occurrence of the given character:
the part before it, and the part after it when it occurs. -/
def breakAt (c : Char) : List Char → List Char × Option (List Char)
  | [] => ([], none)
  | x :: xs =>
    if x = c then ([], some xs)
    else
      let r := breakAt c xs
      (x :: r.1, r.2)

/-- Whether a character is an ASCII digit. -/
def isDigitChar (c : Char) : Bool := c.isDigit

/-- Whether a character may occur in a prerelease or build identifier:
ASCII alphanumeric or hyphen. -/
def isIdentChar (c : Char) : Bool := c.isAlphanum || c = '-'

/-- Numeric value of a digit list. -/
def digitsVal (l : List Char) : Nat :=
  l.foldl (fun acc c => acc * 10 + (c.toNat - 48)) 0

/-- Whether a digit list has a forbidden leading zero. -/
def hasLeadingZero : List Char → Bool
  | '0' :: _ :: _ => true
  | _ => false

/-- Modelled from the spec: one numeric component (major, minor or patch) of
the external semantic-version parser — nonempty, all digits, no leading zero,
and fitting an unsigned 64-bit value. -/
def parseNumericChars (l : List Char) : Option Nat :=
  if l = [] then none
  else if !l.all isDigitChar then none
  else if hasLeadingZero l then none
  else if digitsVal l < 18446744073709551616 then some (digitsVal l) else none

/-- Modelled from the spec: one prerelease identifier of the external
semantic-version parser — nonempty, alphanumeric-or-hyphen characters only,
and without a leading zero when all digits. -/
def parsePreIdChars (l : List Char) : Option PreId :=
  if l = [] then none
  else if l.all isDigitChar then
    if hasLeadingZero l then none else some (PreId.num (digitsVal l))
  else if l.all isIdentChar then some (PreId.str (String.mk l))
  else none

/-- Modelled from the spec: one build metadata identifier of the external
semantic-version parser — nonempty, alphanumeric-or-hyphen characters only. -/
def parseBuildIdChars (l : List Char) : Option String :=
  if l = [] then none
  else if l.all isIdentChar then some (String.mk l)
  else none

/-- Modelled from the spec: the external semantic-version parser — the form
major.minor.patch, optionally followed by a hyphen and dot-separated
prerelease identifiers, optionally followed by a plus and dot-separated build
metadata identifiers; anything else fails. -/
def Version.parse (s : String) : Option Version :=
  let b := breakAt '+' s.toList
  let buildOk : Option (List String) :=
    match b.2 with
    | none => some []
    | some bp => (splitOnDot bp).mapM parseBuildIdChars
  match buildOk with
  | none => none
  | some build =>
    let p := breakAt '-' b.1
    let preOk : Option (List PreId) :=
      match p.2 with
      | none => some []
      | some pp => (splitOnDot pp).mapM parsePreIdChars
    match preOk with
    | none => none
    | some pre =>
      match splitOnDot p.1 with
      | [ma, mi, pa] =>
        match parseNumericChars ma, parseNumericChars mi, parseNumericChars pa with
        | some major, some minor, some patch =>
          some { major, minor, patch, pre, build }
        | _, _, _ => none
      | _ => none

/-- AutoUpdater from src/updater.rs: holds the configuration and nothing else. -/
structure AutoUpdater where
  config : UpdateConfig
  deriving DecidableEq

/-- AutoUpdater.new from src/updater.rs. -/
def AutoUpdater.new (config : UpdateConfig) : AutoUpdater :=
  { config }

/-- set_config from src/updater.rs: replace the held configuration. -/
def AutoUpdater.set_config (u : AutoUpdater) (config : UpdateConfig) : AutoUpdater :=
  { u with config }

/-- current_version accessor from src/updater.rs. -/
def AutoUpdater.current_version (u : AutoUpdater) : String :=
  u.config.current_version

/-- get_download_links from src/updater.rs: pure delegation to the
configuration formatting. -/
def AutoUpdater.get_download_links (u : AutoUpdater) : String × String :=
  u.config.download_links

/-- check_github_updates from src/updater.rs: given the outcome of the
release-list fetch (target probing, builder and fetch folded into one
Except value, as every failure there is propagated with the question-mark
operator), take the first release as latest, strip the leading v run from both
the tag and the current version, and report whether the two stripped strings
differ; an empty list is a GitHub-kind error. -/
def AutoUpdater.check_github_updates (u : AutoUpdater)
    (fetched : UpdateResult (List Release)) : UpdateResult Bool :=
  match fetched with
  | Except.error e => Except.error e
  | Except.ok releases =>
    match releases with
    | latest_release :: _ =>
      let release_version := trim_start_matches_v latest_release.tag
      let current_clean := trim_start_matches_v u.config.current_version
      Except.ok (release_version != current_clean)
    | [] => Except.error (UpdateError.GitHub "未找到任何发布版本")

/-- check_for_updates from src/updater.rs: pass-through wrapper around
check_github_updates that matches on the result and returns it unchanged. -/
def AutoUpdater.check_for_updates (u : AutoUpdater)
    (fetched : UpdateResult (List Release)) : UpdateResult Bool :=
  match u.check_github_updates fetched with
  | Except.ok has_update => Except.ok has_update
  | Except.error e => Except.error e

/-- sync_check_for_updates from src/updater.rs: a verbatim duplicate of the
body of check_github_updates. -/
def AutoUpdater.sync_check_for_updates (u : AutoUpdater)
    (fetched : UpdateResult (List Release)) : UpdateResult Bool :=
  match fetched with
  | Except.error e => Except.error e
  | Except.ok releases =>
    match releases with
    | latest_release :: _ =>
      let release_version := trim_start_matches_v latest_release.tag
      let current_clean := trim_start_matches_v u.config.current_version
      Except.ok (release_version != current_clean)
    | [] => Except.error (UpdateError.GitHub "未找到任何发布版本")

/-- needs_update from src/updater.rs: take the first release as latest, strip
the leading v run from both version strings, and when both strip results parse
as semantic versions decide by strict semantic precedence, otherwise fall back
to string inequality of the stripped strings; an empty list is a GitHub-kind
error. -/
def AutoUpdater.needs_update (u : AutoUpdater)
    (fetched : UpdateResult (List Release)) : UpdateResult Bool :=
  match fetched with
  | Except.error e => Except.error e
  | Except.ok releases =>
    match releases with
    | latest_release :: _ =>
      let current_version := trim_start_matches_v u.config.current_version
      let latest_version := trim_start_matches_v latest_release.tag
      match Version.parse current_version, Version.parse latest_version with
      | some current, some latest => Except.ok (Version.blt current latest)
      | _, _ => Except.ok (latest_version != current_version)
    | [] => Except.error (UpdateError.GitHub "未找到任何发布版本")

/-- get_latest_release_info from src/updater.rs: return tag and name of the
first release verbatim, or the explicit absence value none on an empty list. -/
def AutoUpdater.get_latest_release_info (u : AutoUpdater)
    (fetched : UpdateResult (List Release)) : UpdateResult (Option (String × String)) :=
  match fetched with
  | Except.error e => Except.error e
  | Except.ok releases =>
    match releases with
    | latest_release :: _ => Except.ok (some (latest_release.tag, latest_release.name))
    | [] => Except.ok none

/-- update_from_github from src/updater.rs: given the outcome of the external
update executor (target probing, builder and the update run folded into one
Except value), both the updated and the already-current status collapse to the
same success value. -/
def AutoUpdater.update_from_github (u : AutoUpdater)
    (executed : UpdateResult UpdateStatus) : UpdateResult Unit :=
  match executed with
  | Except.error e => Except.error e
  | Except.ok status =>
    match status.updated with
    | true => Except.ok ()
    | false => Except.ok ()

/-- update_with_fallback from src/updater.rs: pass-through wrapper around
update_from_github that matches on the result, rebuilding the success value. -/
def AutoUpdater.update_with_fallback (u : AutoUpdater)
    (executed : UpdateResult UpdateStatus) : UpdateResult Unit :=
  match u.update_from_github executed with
  | Except.ok _ => Except.ok ()
  | Except.error e => Except.error e

/-- sync_update from src/updater.rs: a verbatim duplicate of the body of
update_from_github. -/
def AutoUpdater.sync_update (u : AutoUpdater)
    (executed : UpdateResult UpdateStatus) : UpdateResult Unit :=
  match executed with
  | Except.error e => Except.error e
  | Except.ok status =>
    match status.updated with
    | true => Except.ok ()
    | false => Except.ok ()

/-- The spec-side stripping written exactly as the claim words it: remove
exactly one leading lowercase v when present, to be compared with the
stripping the source actually performs. -/
def stripSingleLeadingV (s : String) : String :=
  match s.toList with
  | 'v' :: rest => String.mk rest
  | _ => s

theorem cmpLin_swap {α : Type} [LinearOrder α] (a b : α) :
    (cmpLin a b).swap = cmpLin b a := by
  unfold cmpLin
  rcases lt_trichotomy a b with h | h | h
  · simp [h, lt_asymm h, Ordering.swap]
  · subst h
    simp [lt_irrefl, Ordering.swap]
  · simp [h, lt_asymm h, Ordering.swap]

theorem comparePreId_swap (a b : PreId) : (comparePreId a b).swap = comparePreId b a := by
  cases a <;> cases b
  · exact cmpLin_swap _ _
  · rfl
  · rfl
  · exact cmpLin_swap _ _

theorem comparePreList_swap (a b : List PreId) :
    (comparePreList a b).swap = comparePreList b a := by
  induction a generalizing b with
  | nil => cases b <;> simp [comparePreList, Ordering.swap]
  | cons x xs ih =>
    cases b with
    | nil => simp [comparePreList, Ordering.swap]
    | cons y ys => simp [comparePreList, Ordering.swap_then, comparePreId_swap, ih]

theorem comparePre_swap (a b : List PreId) : (comparePre a b).swap = comparePre b a := by
  cases a with
  | nil => cases b <;> simp [comparePre, Ordering.swap]
  | cons x xs =>
    cases b with
    | nil => simp [comparePre, Ordering.swap]
    | cons y ys =>
      show (comparePreList (x :: xs) (y :: ys)).swap = comparePreList (y :: ys) (x :: xs)
      exact comparePreList_swap _ _

theorem Version.cmp_swap (a b : Version) : (Version.cmp a b).swap = Version.cmp b a := by
  unfold Version.cmp
  simp [Ordering.swap_then, cmpLin_swap, comparePre_swap]

theorem Version.blt_irrefl (a : Version) : Version.blt a a = false := by
  have h := Version.cmp_swap a a
  unfold Version.blt
  cases hc : Version.cmp a a <;> rw [hc] at h
  · exact absurd h (by decide)
  · rfl
  · rfl

theorem Version.blt_asymm (a b : Version) (h : Version.blt a b = true) :
    Version.blt b a = false := by
  unfold Version.blt at h ⊢
  have hs := Version.cmp_swap a b
  cases hab : Version.cmp a b <;> rw [hab] at h hs
  · rw [← hs]
    rfl
  · exact absurd h (by decide)
  · exact absurd h (by decide)

theorem dropWhile_idem {α : Type} (p : α → Bool) (l : List α) :
    (l.dropWhile p).dropWhile p = l.dropWhile p := by
  induction l with
  | nil => rfl
  | cons x xs ih =>
    by_cases h : p x = true
    · simp [List.dropWhile_cons, h, ih]
    · simp [List.dropWhile_cons, h]

theorem head_dropWhile_v (l : List Char) :
    (l.dropWhile (fun c => c = 'v')).head? ≠ some 'v' := by
  induction l with
  | nil => simp
  | cons x xs ih =>
    by_cases h : x = 'v'
    · simpa [List.dropWhile_cons, h] using ih
    · simp [List.dropWhile_cons, h]

/-- C1: for every release list whose first tag and the configured current
version both parse as semantic versions after v-stripping, needs_update
returns Ok of exactly the strict semantic-precedence comparison of latest
against current; in particular it returns Ok false when the two versions are
equal and Ok false when the latest is older than the current. -/
theorem needs_update_semver_ordering (u : AutoUpdater) (r : Release)
    (rest : List Release) (cur lat : Version)
    (hc : Version.parse (trim_start_matches_v u.config.current_version) = some cur)
    (hl : Version.parse (trim_start_matches_v r.tag) = some lat) :
    u.needs_update (Except.ok (r :: rest)) = Except.ok (Version.blt cur lat) ∧
    (cur = lat → u.needs_update (Except.ok (r :: rest)) = Except.ok false) ∧
    (Version.blt lat cur = true → u.needs_update (Except.ok (r :: rest)) = Except.ok false) := by
  have hmain : u.needs_update (Except.ok (r :: rest)) = Except.ok (Version.blt cur lat) := by
    simp [AutoUpdater.needs_update, hc, hl]
  refine ⟨hmain, ?_, ?_⟩
  · intro h
    subst h
    rw [hmain, Version.blt_irrefl]
  · intro h
    rw [hmain, Version.blt_asymm lat cur h]

/-- C1 witness: with current version v1.0.0 and latest tag v1.2.3, both
parsing after the strip, needs_update reports an update. -/
theorem needs_update_semver_ordering_witness :
    (AutoUpdater.mk (UpdateConfig.mk "burncloud" "burncloud" "burncloud" "v1.0.0")).needs_update
      (Except.ok [Release.mk "v1.2.3" "Release 1.2.3"]) = Except.ok true := by
  rw [(needs_update_semver_ordering
      (AutoUpdater.mk (UpdateConfig.mk "burncloud" "burncloud" "burncloud" "v1.0.0"))
      (Release.mk "v1.2.3" "Release 1.2.3") [] (Version.mk 1 0 0 [] [])
      (Version.mk 1 2 3 [] []) (by decide) (by decide)).1]
  rfl

/-- C2 counterexample: the source stripping is Rust trim_start_matches, which
removes the whole leading run of the letter v, not a single character — on
vv1.0.0 it produces 1.0.0 while the single-character stripping of the claim
produces v1.0.0, and sync_check_for_updates observably compares vv1.0.0
against tag v1.0.0 as equal. -/
theorem trim_single_v_counterexample :
    trim_start_matches_v "vv1.0.0" = "1.0.0" ∧
    stripSingleLeadingV "vv1.0.0" = "v1.0.0" ∧
    trim_start_matches_v "vv1.0.0" ≠ stripSingleLeadingV "vv1.0.0" ∧
    (AutoUpdater.mk (UpdateConfig.mk "burncloud" "burncloud" "burncloud" "vv1.0.0")).sync_check_for_updates
      (Except.ok [Release.mk "v1.0.0" "Release"]) = Except.ok false := by
  exact ⟨by decide, by decide, by decide, by rfl⟩

/-- C2 amended: the v-stripping used by the comparison operations removes the
whole maximal leading run of lowercase v characters (case-sensitive, so
V1.0.0 is left unchanged), it is idempotent, and its result never starts with
a lowercase v. -/
theorem trim_start_matches_v_spec (s : String) :
    trim_start_matches_v (trim_start_matches_v s) = trim_start_matches_v s ∧
    s.toList.takeWhile (fun c => c = 'v') ++ (trim_start_matches_v s).toList = s.toList ∧
    (trim_start_matches_v s).toList.head? ≠ some 'v' ∧
    trim_start_matches_v "V1.0.0" = "V1.0.0" := by
  refine ⟨?_, ?_, ?_, by decide⟩
  · exact congrArg String.mk (dropWhile_idem _ _)
  · show s.toList.takeWhile (fun c => c = 'v') ++ s.toList.dropWhile (fun c => c = 'v') = s.toList
    exact List.takeWhile_append_dropWhile _ _
  · exact head_dropWhile_v s.toList

/-- C3: for every non-empty release list, when the stripped current version or
the stripped latest tag (or both) fails semantic-version parsing, needs_update
does not fail: it returns Ok of the string inequality of the two stripped
strings, and in particular never a Version-kind error. -/
theorem needs_update_fallback_on_parse_failure (u : AutoUpdater) (r : Release)
    (rest : List Release)
    (h : Version.parse (trim_start_matches_v u.config.current_version) = none ∨
         Version.parse (trim_start_matches_v r.tag) = none) :
    u.needs_update (Except.ok (r :: rest)) =
      Except.ok (trim_start_matches_v r.tag != trim_start_matches_v u.config.current_version) ∧
    ∀ msg, u.needs_update (Except.ok (r :: rest)) ≠ Except.error (UpdateError.Version msg) := by
  have hmain : u.needs_update (Except.ok (r :: rest)) =
      Except.ok (trim_start_matches_v r.tag != trim_start_matches_v u.config.current_version) := by
    rcases h with h | h
    · cases hl : Version.parse (trim_start_matches_v r.tag) <;>
        simp [AutoUpdater.needs_update, h, hl]
    · cases hc : Version.parse (trim_start_matches_v u.config.current_version) <;>
        simp [AutoUpdater.needs_update, h, hc]
  refine ⟨hmain, ?_⟩
  intro msg
  rw [hmain]
  intro hcontra
  exact Except.noConfusion hcontra

/-- C3 witness: the tag latest does not parse as a semantic version, so
needs_update falls back to string inequality against 1.0.0 and succeeds. -/
theorem needs_update_fallback_witness :
    (AutoUpdater.mk (UpdateConfig.mk "burncloud" "burncloud" "burncloud" "1.0.0")).needs_update
      (Except.ok [Release.mk "latest" "Latest build"]) = Except.ok true := by
  rw [(needs_update_fallback_on_parse_failure
      (AutoUpdater.mk (UpdateConfig.mk "burncloud" "burncloud" "burncloud" "1.0.0"))
      (Release.mk "latest" "Latest build") [] (Or.inr (by decide))).1]
  rfl

/-- C4: for every non-empty release list, check_for_updates and
sync_check_for_updates return Ok of the string inequality of the stripped
first tag against the stripped current version, with no semantic ordering —
concretely they even report an update when the remote tag denotes an older
version than the current one. -/
theorem check_for_updates_string_inequality (u : AutoUpdater) (r : Release)
    (rest : List Release) :
    u.check_for_updates (Except.ok (r :: rest)) =
      Except.ok (trim_start_matches_v r.tag != trim_start_matches_v u.config.current_version) ∧
    u.sync_check_for_updates (Except.ok (r :: rest)) =
      Except.ok (trim_start_matches_v r.tag != trim_start_matches_v u.config.current_version) ∧
    (AutoUpdater.mk (UpdateConfig.mk "burncloud" "burncloud" "burncloud" "2.0.0")).sync_check_for_updates
      (Except.ok [Release.mk "v1.0.0" "Older release"]) = Except.ok true := by
  refine ⟨rfl, rfl, by rfl⟩

/-- C5: on an empty release list, needs_update, check_for_updates and
sync_check_for_updates fail with the GitHub-kind error, while
get_latest_release_info succeeds with the explicit absence value none. -/
theorem empty_release_list_behavior (u : AutoUpdater) :
    u.needs_update (Except.ok []) = Except.error (UpdateError.GitHub "未找到任何发布版本") ∧
    u.check_for_updates (Except.ok []) = Except.error (UpdateError.GitHub "未找到任何发布版本") ∧
    u.sync_check_for_updates (Except.ok []) = Except.error (UpdateError.GitHub "未找到任何发布版本") ∧
    u.get_latest_release_info (Except.ok []) = Except.ok none := by
  exact ⟨rfl, rfl, rfl, rfl⟩

/-- C6: the asynchronous entry points are result-equivalent to their blocking
counterparts: for the same configuration and the same collaborator outcomes,
check_for_updates equals sync_check_for_updates and update_with_fallback
equals sync_update. -/
theorem async_sync_equivalence (u : AutoUpdater) (fetched : UpdateResult (List Release))
    (executed : UpdateResult UpdateStatus) :
    u.check_for_updates fetched = u.sync_check_for_updates fetched ∧
    u.update_with_fallback executed = u.sync_update executed := by
  constructor
  · cases fetched with
    | error e => rfl
    | ok releases => cases releases <;> rfl
  · cases executed with
    | error e => rfl
    | ok st =>
      obtain ⟨b, v⟩ := st
      cases b <;> rfl

/-- C7: the release-page links are pure string formatting of the held owner
and repo fields, and for owner burncloud and repo burncloud (any binary name
and version) get_download_links is exactly the documented pair of urls. -/
theorem download_links_formatting (c : UpdateConfig) (b v : String) :
    c.github_releases_url =
      "https://github.com/" ++ c.github_owner ++ "/" ++ c.github_repo ++ "/releases" ∧
    c.gitee_releases_url =
      "https://gitee.com/" ++ c.github_owner ++ "/" ++ c.github_repo ++ "/releases" ∧
    (AutoUpdater.mk (UpdateConfig.mk "burncloud" "burncloud" b v)).get_download_links =
      ("https://github.com/burncloud/burncloud/releases",
        "https://gitee.com/burncloud/burncloud/releases") := by
  refine ⟨rfl, rfl, ?_⟩
  show ("https://github.com/" ++ "burncloud" ++ "/" ++ "burncloud" ++ "/releases",
      "https://gitee.com/" ++ "burncloud" ++ "/" ++ "burncloud" ++ "/releases") = _
  rfl

/-- C8: applying with_bin_name twice keeps the last binary name and leaves the
owner, repo and current version untouched, and a single application changes no
field other than the binary name. -/
theorem with_bin_name_last_write_wins (c : UpdateConfig) (x y : String) :
    ((c.with_bin_name x).with_bin_name y).bin_name = y ∧
    ((c.with_bin_name x).with_bin_name y).github_owner = c.github_owner ∧
    ((c.with_bin_name x).with_bin_name y).github_repo = c.github_repo ∧
    ((c.with_bin_name x).with_bin_name y).current_version = c.current_version ∧
    (c.with_bin_name x).bin_name = x ∧
    (c.with_bin_name x).github_owner = c.github_owner ∧
    (c.with_bin_name x).github_repo = c.github_repo ∧
    (c.with_bin_name x).current_version = c.current_version := by
  exact ⟨rfl, rfl, rfl, rfl, rfl, rfl, rfl, rfl⟩

/-- C9: whenever the external update executor completes without failure,
sync_update, update_with_fallback and update_from_github all return the same
success value, whether the reported outcome says the binary was replaced or
was already current. -/
theorem sync_update_success_collapses_updated_flag (u : AutoUpdater) (st : UpdateStatus) :
    u.sync_update (Except.ok st) = Except.ok () ∧
    u.update_with_fallback (Except.ok st) = Except.ok () ∧
    u.update_from_github (Except.ok st) = Except.ok () := by
  obtain ⟨b, v⟩ := st
  cases b <;> exact ⟨rfl, rfl, rfl⟩

/-- C10: for every non-empty release list, get_latest_release_info returns the
tag and display name of the first entry verbatim, without any v-stripping or
other transformation. -/
theorem get_latest_release_info_verbatim (u : AutoUpdater) (r : Release)
    (rest : List Release) :
    u.get_latest_release_info (Except.ok (r :: rest)) = Except.ok (some (r.tag, r.name)) := by
  rfl
